import Mathlib

/-!
Verification of the DatumX geodetic computation core.

The JavaScript sources (`src/utils/ellipsoids.js`, `src/utils/datums.js`,
and the coordinate-transformation module) are shallowly embedded over the
exact real numbers: every arithmetic operation, catalog entry and control
path is transcribed from the source.  IEEE-754 specifics (NaN, signed
zero) are outside the model.  `Math.atan2 y x` is modelled as the
principal argument of the complex number `x + y*I`, which agrees with the
JavaScript function on all non-degenerate inputs.  Iterative loops
(`for`/`do..while` with caps) are modelled by fuel-based recursion with
the same iteration counts and stopping rules as the source.
-/

namespace DatumX

noncomputable section

open scoped Classical

/-- `Math.atan2 y x`, modelled as the principal argument of `x + y*I`. -/
def atan2 (y x : ℝ) : ℝ := Complex.arg ⟨x, y⟩

/-- `DEG2RAD = Math.PI / 180`. -/
def DEG2RAD : ℝ := Real.pi / 180

/-- `RAD2DEG = 180 / Math.PI`. -/
def RAD2DEG : ℝ := 180 / Real.pi

/-- `ARCSEC2RAD = Math.PI / (180 * 3600)`. -/
def ARCSEC2RAD : ℝ := Real.pi / (180 * 3600)

/-- `toRadians(degrees)`. -/
def toRadians (degrees : ℝ) : ℝ := degrees * DEG2RAD

/-- `toDegrees(radians)`. -/
def toDegrees (radians : ℝ) : ℝ := radians * RAD2DEG

/-- An entry of the `ELLIPSOIDS` catalog: semi-major axis `a` (meters) and
flattening `f`.  The descriptive metadata fields (name, usage, epoch) play
no role in any computation and are omitted. -/
structure Ellipsoid where
  a : ℝ
  f : ℝ

/-- The `WGS84` entry of the ellipsoid catalog. -/
def WGS84ell : Ellipsoid := ⟨6378137.0, 1 / 298.257223563⟩

/-- The `ELLIPSOIDS` catalog from `ellipsoids.js`, keyed by name. -/
def ELLIPSOIDS : String → Option Ellipsoid := fun n =>
  match n with
  | "WGS84" => some WGS84ell
  | "GRS80" => some ⟨6378137.0, 1 / 298.257222101⟩
  | "ED50" => some ⟨6378388.0, 1 / 297.0⟩
  | "Bessel1841" => some ⟨6377397.155, 1 / 299.1528128⟩
  | "Clarke1866" => some ⟨6378206.4, 1 / 294.9786982⟩
  | "Clarke1880" => some ⟨6378249.2, 1 / 293.466021⟩
  | "Krassovsky1940" => some ⟨6378245.0, 1 / 298.3⟩
  | "Airy1830" => some ⟨6377563.396, 1 / 299.3249646⟩
  | _ => none

/-- The record returned by `getEllipsoidParams`. -/
structure EllipsoidParams where
  a : ℝ
  f : ℝ
  b : ℝ
  e : ℝ
  e2 : ℝ
  ep : ℝ
  ep2 : ℝ
  c : ℝ

/-- `getEllipsoidParams(ellipsoid)` from `ellipsoids.js`. -/
def getEllipsoidParams (ellipsoid : Ellipsoid) : EllipsoidParams :=
  let a := ellipsoid.a
  let f := ellipsoid.f
  let b := a * (1 - f)
  let e2 := 2 * f - f * f
  let e := Real.sqrt e2
  let ep2 := e2 / (1 - e2)
  let ep := Real.sqrt ep2
  let c := a * a / b
  ⟨a, f, b, e, e2, ep, ep2, c⟩

/-- Helmert 7-parameter set: translations (m), rotations (arc-seconds),
scale (ppm). -/
structure HelmertParams where
  tx : ℝ
  ty : ℝ
  tz : ℝ
  rx : ℝ
  ry : ℝ
  rz : ℝ
  s : ℝ

/-- A Cartesian (geocentric, ECEF) coordinate in meters. -/
structure XYZ where
  x : ℝ
  y : ℝ
  z : ℝ

/-- A geographic coordinate: `lat`/`lon` in degrees and ellipsoidal height
`h` in meters.  The height is optional: JavaScript callers may omit the
`h` property, and `transformDatum` reads it as `coords.h || 0`. -/
structure GeoCoord where
  lat : ℝ
  lon : ℝ
  h : Option ℝ

/-- An entry of the `DATUMS` catalog: the name of its reference ellipsoid
and its 7-parameter transform to WGS84.  Descriptive metadata fields are
omitted. -/
structure Datum where
  ellipsoid : String
  toWGS84 : HelmertParams

/-- The `DATUMS` catalog from `datums.js`, keyed by name.  (The `HD72`
entry references ellipsoid `"GRS67"`, which is absent from the
`ELLIPSOIDS` catalog, exactly as in the source.) -/
def DATUMS : String → Option Datum := fun n =>
  match n with
  | "WGS84" => some ⟨"WGS84", ⟨0, 0, 0, 0, 0, 0, 0⟩⟩
  | "ITRF2014" => some ⟨"GRS80", ⟨0, 0, 0, 0, 0, 0, 0⟩⟩
  | "ITRF2020" => some ⟨"GRS80", ⟨0, 0, 0, 0, 0, 0, 0⟩⟩
  | "ETRS89" => some ⟨"GRS80", ⟨0, 0, 0, 0, 0, 0, 0⟩⟩
  | "TUREF" => some ⟨"GRS80", ⟨0, 0, 0, 0, 0, 0, 0⟩⟩
  | "ED50" => some ⟨"ED50", ⟨-84.0, -103.0, -127.0, 0, 0, 0, 0⟩⟩
  | "ED50_Turkey" => some ⟨"ED50", ⟨-87.0, -98.0, -121.0, 0, 0, 0, 0⟩⟩
  | "NAD27" => some ⟨"Clarke1866", ⟨-8, 160, 176, 0, 0, 0, 0⟩⟩
  | "NAD83" => some ⟨"GRS80", ⟨0, 0, 0, 0, 0, 0, 0⟩⟩
  | "OSGB36" => some ⟨"Airy1830", ⟨446.448, -125.157, 542.060, 0.1502, 0.2470, 0.8421, -20.4894⟩⟩
  | "Tokyo" => some ⟨"Bessel1841", ⟨-148, 507, 685, 0, 0, 0, 0⟩⟩
  | "Pulkovo1942" => some ⟨"Krassovsky1940", ⟨23.92, -141.27, -80.9, 0, 0.35, 0.82, -0.12⟩⟩
  | "HD72" => some ⟨"GRS67", ⟨52.17, -71.82, -14.9, 0, 0, 0, 0⟩⟩
  | _ => none

/-- Result of `getTransformationParams`: either a single parameter set, or
the two-step `viaWGS84` record. -/
inductive TransParams where
  | direct (p : HelmertParams)
  | via (toW fromW : HelmertParams)

/-- `getTransformationParams(fromDatum, toDatum)` from `datums.js`;
`none` models the `null` return for an unregistered datum. -/
def getTransformationParams (fromDatum toDatum : String) : Option TransParams :=
  if fromDatum = toDatum then
    some (TransParams.direct ⟨0, 0, 0, 0, 0, 0, 0⟩)
  else
    match DATUMS fromDatum, DATUMS toDatum with
    | some source, some target =>
      if toDatum = "WGS84" then
        some (TransParams.direct source.toWGS84)
      else if fromDatum = "WGS84" then
        some (TransParams.direct ⟨-target.toWGS84.tx, -target.toWGS84.ty, -target.toWGS84.tz,
          -target.toWGS84.rx, -target.toWGS84.ry, -target.toWGS84.rz, -target.toWGS84.s⟩)
      else
        some (TransParams.via source.toWGS84
          ⟨-target.toWGS84.tx, -target.toWGS84.ty, -target.toWGS84.tz,
           -target.toWGS84.rx, -target.toWGS84.ry, -target.toWGS84.rz, -target.toWGS84.s⟩)
    | _, _ => none

/-- `geographicToGeocentric(lat, lon, h, ellipsoid)`. -/
def geographicToGeocentric (lat lon h : ℝ) (ellipsoid : Ellipsoid) : XYZ :=
  let params := getEllipsoidParams ellipsoid
  let phi := toRadians lat
  let lambda := toRadians lon
  let sinPhi := Real.sin phi
  let cosPhi := Real.cos phi
  let sinLambda := Real.sin lambda
  let cosLambda := Real.cos lambda
  let N := params.a / Real.sqrt (1 - params.e2 * sinPhi * sinPhi)
  ⟨(N + h) * cosPhi * cosLambda, (N + h) * cosPhi * sinLambda,
   (N * (1 - params.e2) + h) * sinPhi⟩

/-- The latitude refinement loop of `geocentricToGeographic`: up to 10
iterations of `newPhi = atan2(z + e2*N*sinPhi, p)`, breaking (and keeping
the previous iterate) once `|newPhi - phi| < 1e-12`. -/
def g2gIter (a e2 z p : ℝ) : ℕ → ℝ → ℝ
  | 0, phi => phi
  | n + 1, phi =>
    let sinPhi := Real.sin phi
    let N := a / Real.sqrt (1 - e2 * sinPhi * sinPhi)
    let newPhi := atan2 (z + e2 * N * sinPhi) p
    if |newPhi - phi| < 1e-12 then phi else g2gIter a e2 z p n newPhi

/-- `geocentricToGeographic(x, y, z, ellipsoid)`: longitude by `atan2`,
latitude by Bowring's seed plus at most 10 fixed-point iterations, height
with the polar fallback. -/
def geocentricToGeographic (x y z : ℝ) (ellipsoid : Ellipsoid) : GeoCoord :=
  let params := getEllipsoidParams ellipsoid
  let a := params.a
  let b := params.b
  let e2 := params.e2
  let ep2 := params.ep2
  let lambda := atan2 y x
  let p := Real.sqrt (x * x + y * y)
  let theta := atan2 (z * a) (p * b)
  let phi0 := atan2 (z + ep2 * b * (Real.sin theta) ^ 3) (p - e2 * a * (Real.cos theta) ^ 3)
  let phi := g2gIter a e2 z p 10 phi0
  let sinPhi := Real.sin phi
  let cosPhi := Real.cos phi
  let N := a / Real.sqrt (1 - e2 * sinPhi * sinPhi)
  let h := if |cosPhi| > 1e-10 then p / cosPhi - N else |z| / |sinPhi| - N * (1 - e2)
  ⟨toDegrees phi, toDegrees lambda, some h⟩

/-- `helmertTransformation(xyz, params)`: Bursa-Wolf Position Vector
convention, rotations arc-seconds → radians, scale ppm → `1 + s*1e-6`. -/
def helmertTransformation (xyz : XYZ) (params : HelmertParams) : XYZ :=
  let rxRad := params.rx * ARCSEC2RAD
  let ryRad := params.ry * ARCSEC2RAD
  let rzRad := params.rz * ARCSEC2RAD
  let scale := 1 + params.s * 1e-6
  ⟨params.tx + scale * (xyz.x - rzRad * xyz.y + ryRad * xyz.z),
   params.ty + scale * (rzRad * xyz.x + xyz.y - rxRad * xyz.z),
   params.tz + scale * (-ryRad * xyz.x + rxRad * xyz.y + xyz.z)⟩

/-- `inverseHelmertTransformation(xyz, params)`: negates all seven
parameters, then applies the forward transformation. -/
def inverseHelmertTransformation (xyz : XYZ) (params : HelmertParams) : XYZ :=
  helmertTransformation xyz
    ⟨-params.tx, -params.ty, -params.tz, -params.rx, -params.ry, -params.rz, -params.s⟩

/-- A coordinate given to `transformDatum`: the `inputType` argument
(`'geographic'` or `'geocentric'`) is modelled by the variant tag, as at
every call site of the source. -/
inductive Coord where
  | geographic (g : GeoCoord)
  | geocentric (c : XYZ)

/-- The error taxonomy of the pipeline: `transformDatum` throws
`Unknown datum: ...` when either datum name is unregistered. -/
inductive TransError where
  | unknownDatum

/-- `transformDatum(coords, fromDatum, toDatum, inputType)`.  Returns the
input unchanged when the names are equal, throws (models as `.error`) when
either name is unregistered, otherwise routes through geocentric
coordinates and the resolved Helmert parameter set(s).  The `none` branch
of the inner match is unreachable (both lookups just succeeded); the
JavaScript would crash there. -/
def transformDatum (coords : Coord) (fromDatum toDatum : String) : Except TransError Coord :=
  if fromDatum = toDatum then
    Except.ok coords
  else
    match DATUMS fromDatum, DATUMS toDatum with
    | some fromDatumObj, some toDatumObj =>
      let fromEllipsoid := (ELLIPSOIDS fromDatumObj.ellipsoid).getD ⟨0, 0⟩
      let toEllipsoid := (ELLIPSOIDS toDatumObj.ellipsoid).getD ⟨0, 0⟩
      match getTransformationParams fromDatum toDatum with
      | none => Except.error TransError.unknownDatum
      | some transParams =>
        let xyz : XYZ :=
          match coords with
          | Coord.geographic g => geographicToGeocentric g.lat g.lon (g.h.getD 0) fromEllipsoid
          | Coord.geocentric c => ⟨c.x, c.y, c.z⟩
        let transformedXYZ :=
          match transParams with
          | TransParams.via toW fromW =>
              helmertTransformation (helmertTransformation xyz toW) fromW
          | TransParams.direct p => helmertTransformation xyz p
        match coords with
        | Coord.geographic _ =>
            Except.ok (Coord.geographic
              (geocentricToGeographic transformedXYZ.x transformedXYZ.y transformedXYZ.z
                toEllipsoid))
        | Coord.geocentric _ => Except.ok (Coord.geocentric transformedXYZ)
    | _, _ => Except.error TransError.unknownDatum

/-- The `{distance, azimuth12, azimuth21}` record returned by
`vincentyDistance`. -/
structure GeodesicResult where
  distance : ℝ
  azimuth12 : ℝ
  azimuth21 : ℝ

/-- Exit state of the Vincenty `do..while` loop: early zero return
(`sinSigma === 0`), convergence (carrying the final `lambda` and the
last body's `sinSigma, cosSigma, sigma, cos2Alpha, cos2SigmaM`), or the
iteration cap. -/
inductive VOut where
  | zero
  | conv (lambda sinSigma cosSigma sigma cos2Alpha cos2SigmaM : ℝ)
  | cap

/-- One-to-one model of the Vincenty `do..while` loop.  `fuel` counts the
remaining `--iterLimit` decrements: the source starts at `iterLimit =
100`, so the loop body runs at most `fuel + 1` times and the initial call
uses `fuel = 99`. -/
def vincentyGo (L f sinU1 cosU1 sinU2 cosU2 : ℝ) : ℕ → ℝ → VOut
  | fuel, lam =>
    let sinLambda := Real.sin lam
    let cosLambda := Real.cos lam
    let sinSigma := Real.sqrt ((cosU2 * sinLambda) ^ 2 +
      (cosU1 * sinU2 - sinU1 * cosU2 * cosLambda) ^ 2)
    if sinSigma = 0 then VOut.zero
    else
      let cosSigma := sinU1 * sinU2 + cosU1 * cosU2 * cosLambda
      let sigma := atan2 sinSigma cosSigma
      let sinAlpha := cosU1 * cosU2 * sinLambda / sinSigma
      let cos2Alpha := 1 - sinAlpha * sinAlpha
      let cos2SigmaM := if cos2Alpha ≠ 0 then cosSigma - 2 * sinU1 * sinU2 / cos2Alpha else 0
      let C := f / 16 * cos2Alpha * (4 + f * (4 - 3 * cos2Alpha))
      let lam' := L + (1 - C) * f * sinAlpha *
        (sigma + C * sinSigma * (cos2SigmaM + C * cosSigma * (-1 + 2 * cos2SigmaM * cos2SigmaM)))
      if |lam' - lam| ≤ 1e-12 then VOut.conv lam' sinSigma cosSigma sigma cos2Alpha cos2SigmaM
      else
        match fuel with
        | 0 => VOut.cap
        | n + 1 => vincentyGo L f sinU1 cosU1 sinU2 cosU2 n lam'

/-- `vincentyDistance(lat1, lon1, lat2, lon2, ellipsoid)` with the
iteration budget exposed; `none` models the `null` returned when the
iteration cap is reached. -/
def vincentyDistanceAux (fuel : ℕ) (lat1 lon1 lat2 lon2 : ℝ) (ellipsoid : Ellipsoid) :
    Option GeodesicResult :=
  let params := getEllipsoidParams ellipsoid
  let a := params.a
  let b := params.b
  let f := params.f
  let phi1 := toRadians lat1
  let phi2 := toRadians lat2
  let L := toRadians (lon2 - lon1)
  let U1 := Real.arctan ((1 - f) * Real.tan phi1)
  let U2 := Real.arctan ((1 - f) * Real.tan phi2)
  let sinU1 := Real.sin U1
  let cosU1 := Real.cos U1
  let sinU2 := Real.sin U2
  let cosU2 := Real.cos U2
  match vincentyGo L f sinU1 cosU1 sinU2 cosU2 fuel L with
  | VOut.zero => some ⟨0, 0, 0⟩
  | VOut.cap => none
  | VOut.conv lambda sinSigma cosSigma sigma cos2Alpha cos2SigmaM =>
    let uSq := cos2Alpha * (a * a - b * b) / (b * b)
    let A := 1 + uSq / 16384 * (4096 + uSq * (-768 + uSq * (320 - 175 * uSq)))
    let B := uSq / 1024 * (256 + uSq * (-128 + uSq * (74 - 47 * uSq)))
    let deltaSigma := B * sinSigma * (cos2SigmaM + B / 4 *
      (cosSigma * (-1 + 2 * cos2SigmaM * cos2SigmaM) -
        B / 6 * cos2SigmaM * (-3 + 4 * sinSigma * sinSigma) *
          (-3 + 4 * cos2SigmaM * cos2SigmaM)))
    let distance := b * A * (sigma - deltaSigma)
    let azimuth12 := atan2 (cosU2 * Real.sin lambda)
      (cosU1 * sinU2 - sinU1 * cosU2 * Real.cos lambda)
    let azimuth21 := atan2 (cosU1 * Real.sin lambda)
      (-(sinU1 * cosU2) + cosU1 * sinU2 * Real.cos lambda)
    some ⟨distance, toDegrees azimuth12, toDegrees azimuth21⟩

/-- `vincentyDistance` as in the source: `iterLimit = 100`. -/
def vincentyDistance (lat1 lon1 lat2 lon2 : ℝ) (ellipsoid : Ellipsoid) :
    Option GeodesicResult :=
  vincentyDistanceAux 99 lat1 lon1 lat2 lon2 ellipsoid

/-! ## Helper lemmas -/

/-- Extensionality for Cartesian coordinates. -/
theorem XYZ.ext_mk {a b c d e f : ℝ} (h1 : a = d) (h2 : b = e) (h3 : c = f) :
    (⟨a, b, c⟩ : XYZ) = ⟨d, e, f⟩ := by rw [h1, h2, h3]

/-- The Helmert transformation with all seven parameters zero is the
identity (exactly, over the reals). -/
theorem helmertTransformation_id (xyz : XYZ) (p : HelmertParams)
    (htx : p.tx = 0) (hty : p.ty = 0) (htz : p.tz = 0)
    (hrx : p.rx = 0) (hry : p.ry = 0) (hrz : p.rz = 0) (hs : p.s = 0) :
    helmertTransformation xyz p = xyz := by
  obtain ⟨x, y, z⟩ := xyz
  unfold helmertTransformation
  rw [htx, hty, htz, hrx, hry, hrz, hs]
  exact XYZ.ext_mk (by ring) (by ring) (by ring)

/-- With the two endpoints coincident (`L = 0`, equal reduced latitudes),
the very first body of the Vincenty loop hits `sinSigma === 0` and
short-circuits, whatever the remaining iteration budget. -/
theorem vincentyGo_zero (f sU cU : ℝ) (fuel : ℕ) :
    vincentyGo 0 f sU cU sU cU fuel 0 = VOut.zero := by
  rw [vincentyGo]
  have h : (cU * Real.sin 0) ^ 2 + (cU * sU - sU * cU * Real.cos 0) ^ 2 = 0 := by
    rw [Real.sin_zero, Real.cos_zero]; ring
  simp only [h, Real.sqrt_zero, eq_self_iff_true, if_true]

/-! ## Claims -/

/-- C6: `transform(coord, D, D, mode)` returns the coordinate unchanged for
any datum name `D` (registered or not) and either input mode, with no
computation performed on its components. -/
theorem transform_same_datum_identity (c : Coord) (D : String) :
    transformDatum c D D = Except.ok c := by
  unfold transformDatum
  rw [if_pos rfl]

/-- C2 counterexample: with the two datum names equal and unregistered,
`transformDatum` returns the input unchanged instead of failing with the
unknown-datum error, because the equal-names check precedes the
registration check. -/
theorem transform_unknown_equal_names_no_error :
    DATUMS "NOSUCH" = none ∧
    transformDatum (Coord.geocentric ⟨1, 2, 3⟩) "NOSUCH" "NOSUCH" =
      Except.ok (Coord.geocentric ⟨1, 2, 3⟩) :=
  ⟨rfl, rfl⟩

/-- C2 amended: if the two datum names differ and either one is
unregistered, `transformDatum` fails with the unknown-datum error (before
any computation), for every input coordinate and mode. -/
theorem transform_unknown_datum_error (c : Coord) (fromD toD : String) (hne : fromD ≠ toD)
    (h : DATUMS fromD = none ∨ DATUMS toD = none) :
    transformDatum c fromD toD = Except.error TransError.unknownDatum := by
  unfold transformDatum
  rw [if_neg hne]
  rcases h with h | h
  · rw [h]
  · rw [h]
    rcases DATUMS fromD with _ | fObj <;> rfl

/-- C2 witness: the amended statement at a concrete unregistered source
datum. -/
theorem transform_unknown_datum_error_witness :
    ("FOO" ≠ "WGS84" ∧ DATUMS "FOO" = none) ∧
    transformDatum (Coord.geocentric ⟨0, 0, 0⟩) "FOO" "WGS84" =
      Except.error TransError.unknownDatum :=
  ⟨⟨by decide, rfl⟩,
   transform_unknown_datum_error (Coord.geocentric ⟨0, 0, 0⟩) "FOO" "WGS84"
     (by decide) (Or.inl rfl)⟩

/-- C9: the all-zero Helmert parameter set is the exact identity on every
Cartesian coordinate, and consequently a geocentric-mode datum
transformation between two distinct registered datums whose hub
transforms are both all-zero returns the input coordinates exactly. -/
theorem zero_helmert_exact_identity :
    (∀ xyz : XYZ, helmertTransformation xyz ⟨0, 0, 0, 0, 0, 0, 0⟩ = xyz) ∧
    (∀ (xyz : XYZ) (fromD toD : String) (df dt : Datum), fromD ≠ toD →
      DATUMS fromD = some df → DATUMS toD = some dt →
      df.toWGS84 = ⟨0, 0, 0, 0, 0, 0, 0⟩ → dt.toWGS84 = ⟨0, 0, 0, 0, 0, 0, 0⟩ →
      transformDatum (Coord.geocentric xyz) fromD toD = Except.ok (Coord.geocentric xyz)) := by
  constructor
  · intro xyz
    exact helmertTransformation_id xyz _ rfl rfl rfl rfl rfl rfl rfl
  · intro xyz fromD toD df dt hne hf ht hdf hdt
    by_cases hw : toD = "WGS84"
    · simp only [transformDatum, getTransformationParams, if_neg hne, hf, ht, if_pos hw, hdf]
      rw [helmertTransformation_id _ _ rfl rfl rfl rfl rfl rfl rfl]
    · by_cases hw2 : fromD = "WGS84"
      · simp only [transformDatum, getTransformationParams, if_neg hne, hf, ht, if_neg hw,
          if_pos hw2, hdt]
        rw [helmertTransformation_id _ _ (by norm_num) (by norm_num) (by norm_num)
          (by norm_num) (by norm_num) (by norm_num) (by norm_num)]
      · simp only [transformDatum, getTransformationParams, if_neg hne, hf, ht, if_neg hw,
          if_neg hw2, hdf, hdt]
        rw [helmertTransformation_id _ _ (by norm_num) (by norm_num) (by norm_num)
            (by norm_num) (by norm_num) (by norm_num) (by norm_num),
          helmertTransformation_id _ _ rfl rfl rfl rfl rfl rfl rfl]

/-- C9 witness: the transformation from ITRF2014 to NAD83 (two distinct
registered datums with all-zero hub transforms) in geocentric mode is the
exact identity on a concrete coordinate. -/
theorem zero_helmert_exact_identity_witness :
    helmertTransformation ⟨1, 2, 3⟩ ⟨0, 0, 0, 0, 0, 0, 0⟩ = ⟨1, 2, 3⟩ ∧
    transformDatum (Coord.geocentric ⟨1, 2, 3⟩) "ITRF2014" "NAD83" =
      Except.ok (Coord.geocentric ⟨1, 2, 3⟩) :=
  ⟨zero_helmert_exact_identity.1 ⟨1, 2, 3⟩,
   zero_helmert_exact_identity.2 ⟨1, 2, 3⟩ "ITRF2014" "NAD83" _ _
     (by decide) rfl rfl rfl rfl⟩

/-- C10 counterexample: when source and target datum names are equal, the
input is returned verbatim, so the call with the height field absent and
the call with height `0` return different coordinate records. -/
theorem transform_missing_height_same_datum_differs :
    transformDatum (Coord.geographic ⟨1, 2, none⟩) "WGS84" "WGS84" ≠
      transformDatum (Coord.geographic ⟨1, 2, some 0⟩) "WGS84" "WGS84" := by
  unfold transformDatum
  rw [if_pos rfl, if_pos rfl]
  simp

/-- C10 amended: for distinct source and target datum names, a
geographic-mode call with the height field absent behaves exactly as the
same call with height `0` supplied explicitly (`coords.h || 0`), with
identical results including identical error outcomes. -/
theorem transform_missing_height_as_zero (lat lon : ℝ) (fromD toD : String)
    (hne : fromD ≠ toD) :
    transformDatum (Coord.geographic ⟨lat, lon, none⟩) fromD toD =
      transformDatum (Coord.geographic ⟨lat, lon, some 0⟩) fromD toD := by
  unfold transformDatum
  rw [if_neg hne, if_neg hne]
  rcases DATUMS fromD with _ | fObj <;> rcases DATUMS toD with _ | tObj <;>
    simp [Option.getD]

/-- C10 witness: the amended statement at a concrete geographic call. -/
theorem transform_missing_height_as_zero_witness :
    transformDatum (Coord.geographic ⟨10, 20, none⟩) "ED50" "WGS84" =
      transformDatum (Coord.geographic ⟨10, 20, some 0⟩) "ED50" "WGS84" :=
  transform_missing_height_as_zero 10 20 "ED50" "WGS84" (by decide)

/-- C1 counterexample: for the catalog parameter set of OSGB36 (nonzero
rotations and scale) and the coordinate `X = (0,0,0)`, the composition
`invert ∘ apply` moves the x-component by more than `1e-6` meters (about
8 mm), so the inverse law does not hold at the stated tolerance for every
registered parameter set. -/
theorem helmert_inverse_law_fails_osgb36 :
    DATUMS "OSGB36" =
      some ⟨"Airy1830", ⟨446.448, -125.157, 542.060, 0.1502, 0.2470, 0.8421, -20.4894⟩⟩ ∧
    ¬ (|(inverseHelmertTransformation
          (helmertTransformation ⟨0, 0, 0⟩
            ⟨446.448, -125.157, 542.060, 0.1502, 0.2470, 0.8421, -20.4894⟩)
          ⟨446.448, -125.157, 542.060, 0.1502, 0.2470, 0.8421, -20.4894⟩).x - 0| ≤ 1e-6) := by
  refine ⟨rfl, ?_⟩
  rw [not_le]
  unfold inverseHelmertTransformation helmertTransformation ARCSEC2RAD
  dsimp only
  rw [sub_zero]
  refine lt_of_lt_of_le ?_ (le_abs_self _)
  nlinarith [Real.pi_gt_d6, Real.pi_lt_d6]

/-- C1 amended: for every coordinate and every parameter set whose three
rotations and scale are zero (which covers every catalog datum except
OSGB36 and Pulkovo 1942), applying the transform and then applying it
with all seven parameters negated recovers the coordinate exactly — in
particular within `1e-6` meters in each component. -/
theorem helmert_inverse_exact_translation_only (xyz : XYZ) (p : HelmertParams)
    (hrx : p.rx = 0) (hry : p.ry = 0) (hrz : p.rz = 0) (hs : p.s = 0) :
    inverseHelmertTransformation (helmertTransformation xyz p) p = xyz := by
  obtain ⟨x, y, z⟩ := xyz
  unfold inverseHelmertTransformation helmertTransformation ARCSEC2RAD
  rw [hrx, hry, hrz, hs]
  dsimp only
  exact XYZ.ext_mk (by ring) (by ring) (by ring)

/-- C1 witness: the amended statement at the registered ED50 parameter
set (translation-only) and a concrete coordinate. -/
theorem helmert_inverse_exact_translation_only_witness :
    inverseHelmertTransformation
        (helmertTransformation ⟨1, 2, 3⟩ ⟨-84.0, -103.0, -127.0, 0, 0, 0, 0⟩)
        ⟨-84.0, -103.0, -127.0, 0, 0, 0, 0⟩ = ⟨1, 2, 3⟩ :=
  helmert_inverse_exact_translation_only ⟨1, 2, 3⟩ _ rfl rfl rfl rfl


theorem atan2_sin_cos {θ : ℝ} (h1 : -Real.pi < θ) (h2 : θ ≤ Real.pi) :
    atan2 (Real.sin θ) (Real.cos θ) = θ := by
  unfold atan2
  rw [Complex.mk_eq_add_mul_I, Complex.ofReal_cos, Complex.ofReal_sin]
  exact Complex.arg_cos_add_sin_mul_I ⟨h1, h2⟩

theorem atan2_pos_zero {y : ℝ} (hy : 0 < y) : atan2 y 0 = Real.pi / 2 := by
  unfold atan2
  exact Complex.arg_eq_pi_div_two_iff.2 ⟨rfl, hy⟩

theorem vincentyGo_equator_body (L f : ℝ) (fuel : ℕ) (lam : ℝ)
    (h0 : 0 < lam) (hpi : lam < Real.pi) :
    vincentyGo L f 0 1 0 1 fuel lam =
      if |L + f * lam - lam| ≤ 1e-12 then
        VOut.conv (L + f * lam) (Real.sin lam) (Real.cos lam) lam 0 0
      else match fuel with
        | 0 => VOut.cap
        | n + 1 => vincentyGo L f 0 1 0 1 n (L + f * lam) := by
  have hs : 0 < Real.sin lam := Real.sin_pos_of_pos_of_lt_pi h0 hpi
  rw [vincentyGo]
  simp only []
  have h1 : (1 * Real.sin lam) ^ 2 + (1 * 0 - 0 * 1 * Real.cos lam) ^ 2 = Real.sin lam ^ 2 := by
    ring
  rw [h1, Real.sqrt_sq hs.le, if_neg hs.ne']
  have h2 : 1 * 1 * Real.sin lam / Real.sin lam = 1 := by
    field_simp
  rw [h2]
  have h3 : (1 : ℝ) - 1 * 1 = 0 := by norm_num
  rw [h3]
  rw [if_neg (by simp : ¬((0:ℝ) ≠ 0))]
  have h5 : (0:ℝ) * 0 + 1 * 1 * Real.cos lam = Real.cos lam := by ring
  rw [h5]
  rw [atan2_sin_cos (by linarith [Real.pi_pos]) hpi.le]
  have h6 : L + (1 - f / 16 * 0 * (4 + f * (4 - 3 * 0))) * f * 1 *
      (lam + f / 16 * 0 * (4 + f * (4 - 3 * 0)) * Real.sin lam *
        (0 + f / 16 * 0 * (4 + f * (4 - 3 * 0)) * Real.cos lam * (-1 + 2 * 0 * 0))) =
      L + f * lam := by ring
  rw [h6]

theorem vincentyGo_equator_continue (L f : ℝ) (n : ℕ) (lam : ℝ)
    (h0 : 0 < lam) (hpi : lam < Real.pi) (hgap : ¬ |L + f * lam - lam| ≤ 1e-12) :
    vincentyGo L f 0 1 0 1 (n + 1) lam = vincentyGo L f 0 1 0 1 n (L + f * lam) := by
  rw [vincentyGo_equator_body L f (n + 1) lam h0 hpi, if_neg hgap]

theorem vincentyGo_equator_converge (L f : ℝ) (fuel : ℕ) (lam : ℝ)
    (h0 : 0 < lam) (hpi : lam < Real.pi) (hgap : |L + f * lam - lam| ≤ 1e-12) :
    vincentyGo L f 0 1 0 1 fuel lam =
      VOut.conv (L + f * lam) (Real.sin lam) (Real.cos lam) lam 0 0 := by
  rw [vincentyGo_equator_body L f fuel lam h0 hpi, if_pos hgap]

theorem vincentyGo_equator_chain :
    vincentyGo (Real.pi / 180) (1 / 298.257223563) 0 1 0 1 99 (Real.pi / 180) =
      VOut.conv (Real.pi / 180 + 1 / 298.257223563 * (Real.pi / 180 + 1 / 298.257223563 * (Real.pi / 180 + 1 / 298.257223563 * (Real.pi / 180 + 1 / 298.257223563 * (Real.pi / 180 + 1 / 298.257223563 * (Real.pi / 180)))))) (Real.sin (Real.pi / 180 + 1 / 298.257223563 * (Real.pi / 180 + 1 / 298.257223563 * (Real.pi / 180 + 1 / 298.257223563 * (Real.pi / 180 + 1 / 298.257223563 * (Real.pi / 180)))))) (Real.cos (Real.pi / 180 + 1 / 298.257223563 * (Real.pi / 180 + 1 / 298.257223563 * (Real.pi / 180 + 1 / 298.257223563 * (Real.pi / 180 + 1 / 298.257223563 * (Real.pi / 180)))))) (Real.pi / 180 + 1 / 298.257223563 * (Real.pi / 180 + 1 / 298.257223563 * (Real.pi / 180 + 1 / 298.257223563 * (Real.pi / 180 + 1 / 298.257223563 * (Real.pi / 180))))) 0 0 := by
  have hpip := Real.pi_pos
  have hpil := Real.pi_gt_d6
  have hpiu := Real.pi_lt_d6
  have b0 : (0:ℝ) < Real.pi / 180 := by positivity
  have p0 : (Real.pi / 180) < Real.pi := by linarith
  have b1 : (0:ℝ) < Real.pi / 180 + 1 / 298.257223563 * (Real.pi / 180) := by positivity
  have p1 : (Real.pi / 180 + 1 / 298.257223563 * (Real.pi / 180)) < Real.pi := by linarith
  have b2 : (0:ℝ) < Real.pi / 180 + 1 / 298.257223563 * (Real.pi / 180 + 1 / 298.257223563 * (Real.pi / 180)) := by positivity
  have p2 : (Real.pi / 180 + 1 / 298.257223563 * (Real.pi / 180 + 1 / 298.257223563 * (Real.pi / 180))) < Real.pi := by linarith
  have b3 : (0:ℝ) < Real.pi / 180 + 1 / 298.257223563 * (Real.pi / 180 + 1 / 298.257223563 * (Real.pi / 180 + 1 / 298.257223563 * (Real.pi / 180))) := by positivity
  have p3 : (Real.pi / 180 + 1 / 298.257223563 * (Real.pi / 180 + 1 / 298.257223563 * (Real.pi / 180 + 1 / 298.257223563 * (Real.pi / 180)))) < Real.pi := by linarith
  have b4 : (0:ℝ) < Real.pi / 180 + 1 / 298.257223563 * (Real.pi / 180 + 1 / 298.257223563 * (Real.pi / 180 + 1 / 298.257223563 * (Real.pi / 180 + 1 / 298.257223563 * (Real.pi / 180)))) := by positivity
  have p4 : (Real.pi / 180 + 1 / 298.257223563 * (Real.pi / 180 + 1 / 298.257223563 * (Real.pi / 180 + 1 / 298.257223563 * (Real.pi / 180 + 1 / 298.257223563 * (Real.pi / 180))))) < Real.pi := by linarith
  have g0 : ¬ |Real.pi / 180 + 1 / 298.257223563 * (Real.pi / 180) - (Real.pi / 180)| ≤ 1e-12 := by
    rw [not_le]
    refine lt_of_lt_of_le ?_ (le_abs_self _)
    linarith
  have g1 : ¬ |Real.pi / 180 + 1 / 298.257223563 * (Real.pi / 180 + 1 / 298.257223563 * (Real.pi / 180)) - (Real.pi / 180 + 1 / 298.257223563 * (Real.pi / 180))| ≤ 1e-12 := by
    rw [not_le]
    refine lt_of_lt_of_le ?_ (le_abs_self _)
    linarith
  have g2 : ¬ |Real.pi / 180 + 1 / 298.257223563 * (Real.pi / 180 + 1 / 298.257223563 * (Real.pi / 180 + 1 / 298.257223563 * (Real.pi / 180))) - (Real.pi / 180 + 1 / 298.257223563 * (Real.pi / 180 + 1 / 298.257223563 * (Real.pi / 180)))| ≤ 1e-12 := by
    rw [not_le]
    refine lt_of_lt_of_le ?_ (le_abs_self _)
    linarith
  have g3 : ¬ |Real.pi / 180 + 1 / 298.257223563 * (Real.pi / 180 + 1 / 298.257223563 * (Real.pi / 180 + 1 / 298.257223563 * (Real.pi / 180 + 1 / 298.257223563 * (Real.pi / 180)))) - (Real.pi / 180 + 1 / 298.257223563 * (Real.pi / 180 + 1 / 298.257223563 * (Real.pi / 180 + 1 / 298.257223563 * (Real.pi / 180))))| ≤ 1e-12 := by
    rw [not_le]
    refine lt_of_lt_of_le ?_ (le_abs_self _)
    linarith
  have g4 : |Real.pi / 180 + 1 / 298.257223563 * (Real.pi / 180 + 1 / 298.257223563 * (Real.pi / 180 + 1 / 298.257223563 * (Real.pi / 180 + 1 / 298.257223563 * (Real.pi / 180 + 1 / 298.257223563 * (Real.pi / 180))))) - (Real.pi / 180 + 1 / 298.257223563 * (Real.pi / 180 + 1 / 298.257223563 * (Real.pi / 180 + 1 / 298.257223563 * (Real.pi / 180 + 1 / 298.257223563 * (Real.pi / 180)))))| ≤ 1e-12 := by
    rw [abs_of_nonneg (by linarith : (0:ℝ) ≤ Real.pi / 180 + 1 / 298.257223563 * (Real.pi / 180 + 1 / 298.257223563 * (Real.pi / 180 + 1 / 298.257223563 * (Real.pi / 180 + 1 / 298.257223563 * (Real.pi / 180 + 1 / 298.257223563 * (Real.pi / 180))))) - (Real.pi / 180 + 1 / 298.257223563 * (Real.pi / 180 + 1 / 298.257223563 * (Real.pi / 180 + 1 / 298.257223563 * (Real.pi / 180 + 1 / 298.257223563 * (Real.pi / 180))))))]
    linarith
  have s1 : vincentyGo (Real.pi / 180) (1 / 298.257223563) 0 1 0 1 99 (Real.pi / 180) =
      vincentyGo (Real.pi / 180) (1 / 298.257223563) 0 1 0 1 98 (Real.pi / 180 + 1 / 298.257223563 * (Real.pi / 180)) :=
    vincentyGo_equator_continue (Real.pi / 180) (1 / 298.257223563) 98 (Real.pi / 180) b0 p0 g0
  have s2 : vincentyGo (Real.pi / 180) (1 / 298.257223563) 0 1 0 1 98 (Real.pi / 180 + 1 / 298.257223563 * (Real.pi / 180)) =
      vincentyGo (Real.pi / 180) (1 / 298.257223563) 0 1 0 1 97 (Real.pi / 180 + 1 / 298.257223563 * (Real.pi / 180 + 1 / 298.257223563 * (Real.pi / 180))) :=
    vincentyGo_equator_continue (Real.pi / 180) (1 / 298.257223563) 97 (Real.pi / 180 + 1 / 298.257223563 * (Real.pi / 180)) b1 p1 g1
  have s3 : vincentyGo (Real.pi / 180) (1 / 298.257223563) 0 1 0 1 97 (Real.pi / 180 + 1 / 298.257223563 * (Real.pi / 180 + 1 / 298.257223563 * (Real.pi / 180))) =
      vincentyGo (Real.pi / 180) (1 / 298.257223563) 0 1 0 1 96 (Real.pi / 180 + 1 / 298.257223563 * (Real.pi / 180 + 1 / 298.257223563 * (Real.pi / 180 + 1 / 298.257223563 * (Real.pi / 180)))) :=
    vincentyGo_equator_continue (Real.pi / 180) (1 / 298.257223563) 96 (Real.pi / 180 + 1 / 298.257223563 * (Real.pi / 180 + 1 / 298.257223563 * (Real.pi / 180))) b2 p2 g2
  have s4 : vincentyGo (Real.pi / 180) (1 / 298.257223563) 0 1 0 1 96 (Real.pi / 180 + 1 / 298.257223563 * (Real.pi / 180 + 1 / 298.257223563 * (Real.pi / 180 + 1 / 298.257223563 * (Real.pi / 180)))) =
      vincentyGo (Real.pi / 180) (1 / 298.257223563) 0 1 0 1 95 (Real.pi / 180 + 1 / 298.257223563 * (Real.pi / 180 + 1 / 298.257223563 * (Real.pi / 180 + 1 / 298.257223563 * (Real.pi / 180 + 1 / 298.257223563 * (Real.pi / 180))))) :=
    vincentyGo_equator_continue (Real.pi / 180) (1 / 298.257223563) 95 (Real.pi / 180 + 1 / 298.257223563 * (Real.pi / 180 + 1 / 298.257223563 * (Real.pi / 180 + 1 / 298.257223563 * (Real.pi / 180)))) b3 p3 g3
  have s5 : vincentyGo (Real.pi / 180) (1 / 298.257223563) 0 1 0 1 95 (Real.pi / 180 + 1 / 298.257223563 * (Real.pi / 180 + 1 / 298.257223563 * (Real.pi / 180 + 1 / 298.257223563 * (Real.pi / 180 + 1 / 298.257223563 * (Real.pi / 180))))) =
      VOut.conv (Real.pi / 180 + 1 / 298.257223563 * (Real.pi / 180 + 1 / 298.257223563 * (Real.pi / 180 + 1 / 298.257223563 * (Real.pi / 180 + 1 / 298.257223563 * (Real.pi / 180 + 1 / 298.257223563 * (Real.pi / 180)))))) (Real.sin (Real.pi / 180 + 1 / 298.257223563 * (Real.pi / 180 + 1 / 298.257223563 * (Real.pi / 180 + 1 / 298.257223563 * (Real.pi / 180 + 1 / 298.257223563 * (Real.pi / 180)))))) (Real.cos (Real.pi / 180 + 1 / 298.257223563 * (Real.pi / 180 + 1 / 298.257223563 * (Real.pi / 180 + 1 / 298.257223563 * (Real.pi / 180 + 1 / 298.257223563 * (Real.pi / 180)))))) (Real.pi / 180 + 1 / 298.257223563 * (Real.pi / 180 + 1 / 298.257223563 * (Real.pi / 180 + 1 / 298.257223563 * (Real.pi / 180 + 1 / 298.257223563 * (Real.pi / 180))))) 0 0 :=
    vincentyGo_equator_converge (Real.pi / 180) (1 / 298.257223563) 95 (Real.pi / 180 + 1 / 298.257223563 * (Real.pi / 180 + 1 / 298.257223563 * (Real.pi / 180 + 1 / 298.257223563 * (Real.pi / 180 + 1 / 298.257223563 * (Real.pi / 180))))) b4 p4 g4
  exact s1.trans (s2.trans (s3.trans (s4.trans s5)))


set_option maxHeartbeats 1000000 in
theorem vincenty_equator_one_degree :
    vincentyDistance 0 0 0 1 WGS84ell =
      some ⟨6378137 * (1 - (1 / 298.257223563 : ℝ) ^ 5) * (Real.pi / 180), 90, 90⟩ := by
  have hpip := Real.pi_pos
  have hpil := Real.pi_gt_d6
  have b5 : (0:ℝ) < Real.pi / 180 + 1 / 298.257223563 * (Real.pi / 180 + 1 / 298.257223563 * (Real.pi / 180 + 1 / 298.257223563 * (Real.pi / 180 + 1 / 298.257223563 * (Real.pi / 180 + 1 / 298.257223563 * (Real.pi / 180))))) := by positivity
  have p5 : (Real.pi / 180 + 1 / 298.257223563 * (Real.pi / 180 + 1 / 298.257223563 * (Real.pi / 180 + 1 / 298.257223563 * (Real.pi / 180 + 1 / 298.257223563 * (Real.pi / 180 + 1 / 298.257223563 * (Real.pi / 180)))))) < Real.pi := by linarith
  have hs5 : 0 < Real.sin (Real.pi / 180 + 1 / 298.257223563 * (Real.pi / 180 + 1 / 298.257223563 * (Real.pi / 180 + 1 / 298.257223563 * (Real.pi / 180 + 1 / 298.257223563 * (Real.pi / 180 + 1 / 298.257223563 * (Real.pi / 180)))))) := Real.sin_pos_of_pos_of_lt_pi b5 p5
  have hf : (getEllipsoidParams WGS84ell).f = 1 / 298.257223563 := rfl
  have ha : (getEllipsoidParams WGS84ell).a = 6378137 := by
    norm_num [getEllipsoidParams, WGS84ell]
  have hb : (getEllipsoidParams WGS84ell).b = 6378137 * (1 - 1 / 298.257223563) := by
    norm_num [getEllipsoidParams, WGS84ell]
  have e1 : toRadians (1 - 0) = Real.pi / 180 := by
    unfold toRadians DEG2RAD
    norm_num
  have e2 : toRadians 0 = 0 := by
    unfold toRadians
    exact zero_mul _
  have hdeg : toDegrees (Real.pi / 2) = 90 := by
    unfold toDegrees RAD2DEG
    field_simp
    ring
  unfold vincentyDistance vincentyDistanceAux
  simp only []
  rw [hf, ha, hb, e1, e2, Real.tan_zero, mul_zero, Real.arctan_zero, Real.sin_zero,
    Real.cos_zero]
  rw [vincentyGo_equator_chain]
  simp only []
  have z1 : (1:ℝ) * 0 - 0 * 1 * Real.cos (Real.pi / 180 + 1 / 298.257223563 * (Real.pi / 180 + 1 / 298.257223563 * (Real.pi / 180 + 1 / 298.257223563 * (Real.pi / 180 + 1 / 298.257223563 * (Real.pi / 180 + 1 / 298.257223563 * (Real.pi / 180)))))) = 0 := by ring
  have z2 : (1:ℝ) * Real.sin (Real.pi / 180 + 1 / 298.257223563 * (Real.pi / 180 + 1 / 298.257223563 * (Real.pi / 180 + 1 / 298.257223563 * (Real.pi / 180 + 1 / 298.257223563 * (Real.pi / 180 + 1 / 298.257223563 * (Real.pi / 180)))))) = Real.sin (Real.pi / 180 + 1 / 298.257223563 * (Real.pi / 180 + 1 / 298.257223563 * (Real.pi / 180 + 1 / 298.257223563 * (Real.pi / 180 + 1 / 298.257223563 * (Real.pi / 180 + 1 / 298.257223563 * (Real.pi / 180)))))) := one_mul _
  have z3 : -((0:ℝ) * 1) + 1 * 0 * Real.cos (Real.pi / 180 + 1 / 298.257223563 * (Real.pi / 180 + 1 / 298.257223563 * (Real.pi / 180 + 1 / 298.257223563 * (Real.pi / 180 + 1 / 298.257223563 * (Real.pi / 180 + 1 / 298.257223563 * (Real.pi / 180)))))) = 0 := by ring
  rw [z1, z2, z3, atan2_pos_zero hs5, hdeg]
  simp only [Option.some.injEq, GeodesicResult.mk.injEq]
  exact ⟨by ring, trivial, trivial⟩


/-- C3 counterexample: for `inverse(0,0, 0,1, WGS84)` the code returns a
reverse azimuth of exactly 90 degrees (the forward-pointing azimuth at the
second endpoint, with no 180-degree flip and no normalization into
`[0,360)`), which is not approximately 270 degrees. -/
theorem vincenty_equator_reverse_azimuth_not_270 :
    (vincentyDistance 0 0 0 1 WGS84ell).map GeodesicResult.azimuth21 = some 90 ∧
    ¬ |(90 : ℝ) - 270| ≤ 90 := by
  constructor
  · rw [vincenty_equator_one_degree]
    rfl
  · rw [not_le]
    have h : |(90 : ℝ) - 270| = 180 := by
      rw [abs_of_nonpos (by norm_num)]
      norm_num
    rw [h]
    norm_num

/-- C3 amended: `inverse(0,0, 0,1, WGS84)` returns a distance within
`1e-3` meters of 111319.49 and a forward azimuth of exactly 90 degrees,
but the reverse azimuth is 90 degrees as well (the azimuth of the
geodesic at the second endpoint in the forward direction), not 270. -/
theorem vincenty_equator_one_degree_result :
    ∃ r : GeodesicResult, vincentyDistance 0 0 0 1 WGS84ell = some r ∧
      |r.distance - 111319.49| < 1e-3 ∧ r.azimuth12 = 90 ∧ r.azimuth21 = 90 := by
  refine ⟨_, vincenty_equator_one_degree, ?_, rfl, rfl⟩
  rw [abs_lt]
  constructor <;> linarith [Real.pi_gt_d20, Real.pi_lt_d20]

/-- C7: the inverse geodesic returns the distinguished non-convergence
result (`null`, modelled `none`) exactly when the Vincenty iteration
exhausts its 100-iteration budget with every `|Δλ|` still above `1e-12`;
otherwise it returns a numeric result. -/
theorem vincenty_nonconvergence_iff_cap (lat1 lon1 lat2 lon2 : ℝ) (E : Ellipsoid) :
    vincentyDistance lat1 lon1 lat2 lon2 E = none ↔
    vincentyGo (toRadians (lon2 - lon1)) (getEllipsoidParams E).f
      (Real.sin (Real.arctan ((1 - (getEllipsoidParams E).f) * Real.tan (toRadians lat1))))
      (Real.cos (Real.arctan ((1 - (getEllipsoidParams E).f) * Real.tan (toRadians lat1))))
      (Real.sin (Real.arctan ((1 - (getEllipsoidParams E).f) * Real.tan (toRadians lat2))))
      (Real.cos (Real.arctan ((1 - (getEllipsoidParams E).f) * Real.tan (toRadians lat2))))
      99 (toRadians (lon2 - lon1)) = VOut.cap := by
  unfold vincentyDistance vincentyDistanceAux
  rcases hgo : vincentyGo (toRadians (lon2 - lon1)) (getEllipsoidParams E).f
      (Real.sin (Real.arctan ((1 - (getEllipsoidParams E).f) * Real.tan (toRadians lat1))))
      (Real.cos (Real.arctan ((1 - (getEllipsoidParams E).f) * Real.tan (toRadians lat1))))
      (Real.sin (Real.arctan ((1 - (getEllipsoidParams E).f) * Real.tan (toRadians lat2))))
      (Real.cos (Real.arctan ((1 - (getEllipsoidParams E).f) * Real.tan (toRadians lat2))))
      99 (toRadians (lon2 - lon1)) with _ | ⟨l, s1, s2, s3, s4, s5⟩ | _ <;>
    simp [hgo]

/-- C8: the inverse geodesic on two identical endpoints returns distance 0
and both azimuths 0, for every point, every ellipsoid, and every
iteration budget — so the zero result comes from the coincident-point
short-circuit and never from (or near) the non-convergence path. -/
theorem vincenty_coincident_zero :
    (∀ (fuel : ℕ) (lat lon : ℝ) (E : Ellipsoid),
      vincentyDistanceAux fuel lat lon lat lon E = some ⟨0, 0, 0⟩) ∧
    (∀ (lat lon : ℝ) (E : Ellipsoid),
      vincentyDistance lat lon lat lon E = some ⟨0, 0, 0⟩) := by
  have main : ∀ (fuel : ℕ) (lat lon : ℝ) (E : Ellipsoid),
      vincentyDistanceAux fuel lat lon lat lon E = some ⟨0, 0, 0⟩ := by
    intro fuel lat lon E
    have hL : toRadians 0 = 0 := by
      unfold toRadians; exact zero_mul _
    simp only [vincentyDistanceAux, sub_self, hL, vincentyGo_zero]
  exact ⟨main, fun lat lon E => main 99 lat lon E⟩

set_option maxHeartbeats 2000000 in
/-- Interval bounds for the sine and cosine of `41.0082 * pi / 180` radians, from the
20-digit bounds on pi, the quartic Taylor bounds at one eighth of the
angle, and three double-angle steps. -/
theorem sin_cos_istanbul_lat :
    ((0.65605629819036:ℝ) ≤ Real.sin (41.0082 * (Real.pi / 180)) ∧ Real.sin (41.0082 * (Real.pi / 180)) ≤ 0.65620074358862) ∧
    ((0.75426286227043:ℝ) ≤ Real.cos (41.0082 * (Real.pi / 180)) ∧ Real.cos (41.0082 * (Real.pi / 180)) ≤ 0.75465493052594) := by
  have hpil : (3.14159265358979323846:ℝ) < Real.pi := Real.pi_gt_d20
  have hpiu : Real.pi < 3.14159265358979323847 := Real.pi_lt_d20
  have hq_lo : (0.08946601378954 : ℝ) ≤ 41.0082 * (Real.pi / 180) / 8 := by linarith
  have hq_hi : 41.0082 * (Real.pi / 180) / 8 ≤ (0.08946601378955 : ℝ) := by linarith
  have hq_nn : (0:ℝ) ≤ 41.0082 * (Real.pi / 180) / 8 := by linarith
  have habs : |41.0082 * (Real.pi / 180) / 8| ≤ 1 := by
    rw [abs_of_nonneg hq_nn]
    linarith
  have hsb := Real.sin_bound habs
  have hcb := Real.cos_bound habs
  rw [abs_of_nonneg hq_nn, abs_le] at hsb hcb
  have hp2 : (41.0082 * (Real.pi / 180) / 8)^2 ≤ (0.08946601378955:ℝ)^2 := pow_le_pow_left₀ hq_nn hq_hi 2
  have hp2l : (0.08946601378954:ℝ)^2 ≤ (41.0082 * (Real.pi / 180) / 8)^2 := pow_le_pow_left₀ (by norm_num) hq_lo 2
  have hp3 : (41.0082 * (Real.pi / 180) / 8)^3 ≤ (0.08946601378955:ℝ)^3 := pow_le_pow_left₀ hq_nn hq_hi 3
  have hp3l : (0.08946601378954:ℝ)^3 ≤ (41.0082 * (Real.pi / 180) / 8)^3 := pow_le_pow_left₀ (by norm_num) hq_lo 3
  have hp4 : (41.0082 * (Real.pi / 180) / 8)^4 ≤ (0.08946601378955:ℝ)^4 := pow_le_pow_left₀ hq_nn hq_hi 4
  have hs0_lo : (0.08934332682045:ℝ) ≤ Real.sin (41.0082 * (Real.pi / 180) / 8) := by linarith [hsb.1]
  have hs0_hi : Real.sin (41.0082 * (Real.pi / 180) / 8) ≤ (0.08935000043498:ℝ) := by linarith [hsb.2]
  have hc0_lo : (0.99599457938104:ℝ) ≤ Real.cos (41.0082 * (Real.pi / 180) / 8) := by linarith [hcb.1]
  have hc0_hi : Real.cos (41.0082 * (Real.pi / 180) / 8) ≤ (0.99600125299557:ℝ) := by linarith [hcb.2]
  have hsin1 : Real.sin (41.0082 * (Real.pi / 180) / 4) = 2 * Real.sin (41.0082 * (Real.pi / 180) / 8) * Real.cos (41.0082 * (Real.pi / 180) / 8) := by
    rw [← Real.sin_two_mul]
    congr 1
    ring
  have hcos1 : Real.cos (41.0082 * (Real.pi / 180) / 4) = 2 * Real.cos (41.0082 * (Real.pi / 180) / 8)^2 - 1 := by
    rw [← Real.cos_two_mul]
    congr 1
    ring
  have hs1_lo : (0.17797093843407:ℝ) ≤ Real.sin (41.0082 * (Real.pi / 180) / 4) := by
    rw [hsin1]
    have key := mul_le_mul hs0_lo hc0_lo (by norm_num) (by linarith)
    linarith
  have hs1_hi : Real.sin (41.0082 * (Real.pi / 180) / 4) ≤ (0.17798542477679:ℝ) := by
    rw [hsin1]
    have key := mul_le_mul hs0_hi hc0_hi (by linarith) (by norm_num)
    linarith
  have hc1_lo : (0.98401040431282:ℝ) ≤ Real.cos (41.0082 * (Real.pi / 180) / 4) := by
    rw [hcos1]
    have key := pow_le_pow_left₀ (by norm_num : (0:ℝ) ≤ 0.99599457938104) hc0_lo 2
    linarith
  have hc1_hi : Real.cos (41.0082 * (Real.pi / 180) / 4) ≤ (0.9840369919375:ℝ) := by
    rw [hcos1]
    have key := pow_le_pow_left₀ (by linarith : (0:ℝ) ≤ Real.cos (41.0082 * (Real.pi / 180) / 8)) hc0_hi 2
    linarith
  have hsin2 : Real.sin (41.0082 * (Real.pi / 180) / 2) = 2 * Real.sin (41.0082 * (Real.pi / 180) / 4) * Real.cos (41.0082 * (Real.pi / 180) / 4) := by
    rw [← Real.sin_two_mul]
    congr 1
    ring
  have hcos2 : Real.cos (41.0082 * (Real.pi / 180) / 2) = 2 * Real.cos (41.0082 * (Real.pi / 180) / 4)^2 - 1 := by
    rw [← Real.cos_two_mul]
    congr 1
    ring
  have hs2_lo : (0.35025051016888:ℝ) ≤ Real.sin (41.0082 * (Real.pi / 180) / 2) := by
    rw [hsin2]
    have key := mul_le_mul hs1_lo hc1_lo (by norm_num) (by linarith)
    linarith
  have hs2_hi : Real.sin (41.0082 * (Real.pi / 180) / 2) ≤ (0.35028848401215:ℝ) := by
    rw [hsin2]
    have key := mul_le_mul hs1_hi hc1_hi (by linarith) (by norm_num)
    linarith
  have hc2_lo : (0.93655295159175:ℝ) ≤ Real.cos (41.0082 * (Real.pi / 180) / 2) := by
    rw [hcos2]
    have key := pow_le_pow_left₀ (by norm_num : (0:ℝ) ≤ 0.98401040431282) hc1_lo 2
    linarith
  have hc2_hi : Real.cos (41.0082 * (Real.pi / 180) / 2) ≤ (0.93665760300281:ℝ) := by
    rw [hcos2]
    have key := pow_le_pow_left₀ (by linarith : (0:ℝ) ≤ Real.cos (41.0082 * (Real.pi / 180) / 4)) hc1_hi 2
    linarith
  have hsin3 : Real.sin (41.0082 * (Real.pi / 180)) = 2 * Real.sin (41.0082 * (Real.pi / 180) / 2) * Real.cos (41.0082 * (Real.pi / 180) / 2) := by
    rw [← Real.sin_two_mul]
    congr 1
    ring
  have hcos3 : Real.cos (41.0082 * (Real.pi / 180)) = 2 * Real.cos (41.0082 * (Real.pi / 180) / 2)^2 - 1 := by
    rw [← Real.cos_two_mul]
    congr 1
    ring
  have hs3_lo : (0.65605629819036:ℝ) ≤ Real.sin (41.0082 * (Real.pi / 180)) := by
    rw [hsin3]
    have key := mul_le_mul hs2_lo hc2_lo (by norm_num) (by linarith)
    linarith
  have hs3_hi : Real.sin (41.0082 * (Real.pi / 180)) ≤ (0.65620074358862:ℝ) := by
    rw [hsin3]
    have key := mul_le_mul hs2_hi hc2_hi (by linarith) (by norm_num)
    linarith
  have hc3_lo : (0.75426286227043:ℝ) ≤ Real.cos (41.0082 * (Real.pi / 180)) := by
    rw [hcos3]
    have key := pow_le_pow_left₀ (by norm_num : (0:ℝ) ≤ 0.93655295159175) hc2_lo 2
    linarith
  have hc3_hi : Real.cos (41.0082 * (Real.pi / 180)) ≤ (0.75465493052594:ℝ) := by
    rw [hcos3]
    have key := pow_le_pow_left₀ (by linarith : (0:ℝ) ≤ Real.cos (41.0082 * (Real.pi / 180) / 2)) hc2_hi 2
    linarith
  exact ⟨⟨hs3_lo, hs3_hi⟩, hc3_lo, hc3_hi⟩

set_option maxHeartbeats 2000000 in
/-- Interval bounds for the sine and cosine of `28.9784 * pi / 180` radians, from the
20-digit bounds on pi, the quartic Taylor bounds at one eighth of the
angle, and three double-angle steps. -/
theorem sin_cos_istanbul_lon :
    ((0.48445789991663:ℝ) ≤ Real.sin (28.9784 * (Real.pi / 180)) ∧ Real.sin (28.9784 * (Real.pi / 180)) ≤ 0.48448790302915) ∧
    ((0.87471054278257:ℝ) ≤ Real.cos (28.9784 * (Real.pi / 180)) ∧ Real.cos (28.9784 * (Real.pi / 180)) ≤ 0.87481262803316) := by
  have hpil : (3.14159265358979323846:ℝ) < Real.pi := Real.pi_gt_d20
  have hpiu : Real.pi < 3.14159265358979323847 := Real.pi_lt_d20
  have hq_lo : (0.06322106149499 : ℝ) ≤ 28.9784 * (Real.pi / 180) / 8 := by linarith
  have hq_hi : 28.9784 * (Real.pi / 180) / 8 ≤ (0.063221061495 : ℝ) := by linarith
  have hq_nn : (0:ℝ) ≤ 28.9784 * (Real.pi / 180) / 8 := by linarith
  have habs : |28.9784 * (Real.pi / 180) / 8| ≤ 1 := by
    rw [abs_of_nonneg hq_nn]
    linarith
  have hsb := Real.sin_bound habs
  have hcb := Real.cos_bound habs
  rw [abs_of_nonneg hq_nn, abs_le] at hsb hcb
  have hp2 : (28.9784 * (Real.pi / 180) / 8)^2 ≤ (0.063221061495:ℝ)^2 := pow_le_pow_left₀ hq_nn hq_hi 2
  have hp2l : (0.06322106149499:ℝ)^2 ≤ (28.9784 * (Real.pi / 180) / 8)^2 := pow_le_pow_left₀ (by norm_num) hq_lo 2
  have hp3 : (28.9784 * (Real.pi / 180) / 8)^3 ≤ (0.063221061495:ℝ)^3 := pow_le_pow_left₀ hq_nn hq_hi 3
  have hp3l : (0.06322106149499:ℝ)^3 ≤ (28.9784 * (Real.pi / 180) / 8)^3 := pow_le_pow_left₀ (by norm_num) hq_lo 3
  have hp4 : (28.9784 * (Real.pi / 180) / 8)^4 ≤ (0.063221061495:ℝ)^4 := pow_le_pow_left₀ hq_nn hq_hi 4
  have hs0_lo : (0.06317811471404:ℝ) ≤ Real.sin (28.9784 * (Real.pi / 180) / 8) := by linarith [hsb.1]
  have hs0_hi : Real.sin (28.9784 * (Real.pi / 180) / 8) ≤ (0.06317977880058:ℝ) := by linarith [hsb.2]
  have hc0_lo : (0.99800071664846:ℝ) ≤ Real.cos (28.9784 * (Real.pi / 180) / 8) := by linarith [hcb.1]
  have hc0_hi : Real.cos (28.9784 * (Real.pi / 180) / 8) ≤ (0.99800238073498:ℝ) := by linarith [hcb.2]
  have hsin1 : Real.sin (28.9784 * (Real.pi / 180) / 4) = 2 * Real.sin (28.9784 * (Real.pi / 180) / 8) * Real.cos (28.9784 * (Real.pi / 180) / 8) := by
    rw [← Real.sin_two_mul]
    congr 1
    ring
  have hcos1 : Real.cos (28.9784 * (Real.pi / 180) / 4) = 2 * Real.cos (28.9784 * (Real.pi / 180) / 8)^2 - 1 := by
    rw [← Real.cos_two_mul]
    congr 1
    ring
  have hs1_lo : (0.12610360752222:ℝ) ≤ Real.sin (28.9784 * (Real.pi / 180) / 4) := by
    rw [hsin1]
    have key := mul_le_mul hs0_lo hc0_lo (by norm_num) (by linarith)
    linarith
  have hs1_hi : Real.sin (28.9784 * (Real.pi / 180) / 4) ≤ (0.12610713931458:ℝ) := by
    rw [hsin1]
    have key := mul_le_mul hs0_hi hc0_hi (by linarith) (by norm_num)
    linarith
  have hc1_lo : (0.99201086086167:ℝ) ≤ Real.cos (28.9784 * (Real.pi / 180) / 4) := by
    rw [hcos1]
    have key := pow_le_pow_left₀ (by norm_num : (0:ℝ) ≤ 0.99800071664846) hc0_lo 2
    linarith
  have hc1_hi : Real.cos (28.9784 * (Real.pi / 180) / 4) ≤ (0.99201750390538:ℝ) := by
    rw [hcos1]
    have key := pow_le_pow_left₀ (by linarith : (0:ℝ) ≤ Real.cos (28.9784 * (Real.pi / 180) / 8)) hc0_hi 2
    linarith
  have hsin2 : Real.sin (28.9784 * (Real.pi / 180) / 2) = 2 * Real.sin (28.9784 * (Real.pi / 180) / 4) * Real.cos (28.9784 * (Real.pi / 180) / 4) := by
    rw [← Real.sin_two_mul]
    congr 1
    ring
  have hcos2 : Real.cos (28.9784 * (Real.pi / 180) / 2) = 2 * Real.cos (28.9784 * (Real.pi / 180) / 4)^2 - 1 := by
    rw [← Real.cos_two_mul]
    congr 1
    ring
  have hs2_lo : (0.25019229651175:ℝ) ≤ Real.sin (28.9784 * (Real.pi / 180) / 2) := by
    rw [hsin2]
    have key := mul_le_mul hs1_lo hc1_lo (by norm_num) (by linarith)
    linarith
  have hs2_hi : Real.sin (28.9784 * (Real.pi / 180) / 2) ≤ (0.250200979135:ℝ) := by
    rw [hsin2]
    have key := mul_le_mul hs1_hi hc1_hi (by linarith) (by norm_num)
    linarith
  have hc2_lo : (0.96817109613502:ℝ) ≤ Real.cos (28.9784 * (Real.pi / 180) / 2) := by
    rw [hcos2]
    have key := pow_le_pow_left₀ (by norm_num : (0:ℝ) ≤ 0.99201086086167) hc1_lo 2
    linarith
  have hc2_hi : Real.cos (28.9784 * (Real.pi / 180) / 2) ≤ (0.96819745610933:ℝ) := by
    rw [hcos2]
    have key := pow_le_pow_left₀ (by linarith : (0:ℝ) ≤ Real.cos (28.9784 * (Real.pi / 180) / 4)) hc1_hi 2
    linarith
  have hsin3 : Real.sin (28.9784 * (Real.pi / 180)) = 2 * Real.sin (28.9784 * (Real.pi / 180) / 2) * Real.cos (28.9784 * (Real.pi / 180) / 2) := by
    rw [← Real.sin_two_mul]
    congr 1
    ring
  have hcos3 : Real.cos (28.9784 * (Real.pi / 180)) = 2 * Real.cos (28.9784 * (Real.pi / 180) / 2)^2 - 1 := by
    rw [← Real.cos_two_mul]
    congr 1
    ring
  have hs3_lo : (0.48445789991663:ℝ) ≤ Real.sin (28.9784 * (Real.pi / 180)) := by
    rw [hsin3]
    have key := mul_le_mul hs2_lo hc2_lo (by norm_num) (by linarith)
    linarith
  have hs3_hi : Real.sin (28.9784 * (Real.pi / 180)) ≤ (0.48448790302915:ℝ) := by
    rw [hsin3]
    have key := mul_le_mul hs2_hi hc2_hi (by linarith) (by norm_num)
    linarith
  have hc3_lo : (0.87471054278257:ℝ) ≤ Real.cos (28.9784 * (Real.pi / 180)) := by
    rw [hcos3]
    have key := pow_le_pow_left₀ (by norm_num : (0:ℝ) ≤ 0.96817109613502) hc2_lo 2
    linarith
  have hc3_hi : Real.cos (28.9784 * (Real.pi / 180)) ≤ (0.87481262803316:ℝ) := by
    rw [hcos3]
    have key := pow_le_pow_left₀ (by linarith : (0:ℝ) ≤ Real.cos (28.9784 * (Real.pi / 180) / 2)) hc2_hi 2
    linarith
  exact ⟨⟨hs3_lo, hs3_hi⟩, hc3_lo, hc3_hi⟩

set_option maxHeartbeats 2000000 in
/-- Interval bounds for the three components of the closed-form
geographic-to-geocentric conversion at (41.0082, 28.9784, 0) on WGS84. -/
theorem geocentric_istanbul_bounds_raw :
    ((4214125:ℝ) ≤ (6378137.0 / Real.sqrt (1 - (2 * (1 / 298.257223563) - 1 / 298.257223563 * (1 / 298.257223563)) * Real.sin (41.0082 * (Real.pi / 180)) * Real.sin (41.0082 * (Real.pi / 180))) + 0) * Real.cos (41.0082 * (Real.pi / 180)) * Real.cos (28.9784 * (Real.pi / 180)) ∧ ((6378137.0 / Real.sqrt (1 - (2 * (1 / 298.257223563) - 1 / 298.257223563 * (1 / 298.257223563)) * Real.sin (41.0082 * (Real.pi / 180)) * Real.sin (41.0082 * (Real.pi / 180))) + 0) * Real.cos (41.0082 * (Real.pi / 180)) * Real.cos (28.9784 * (Real.pi / 180))) ≤ 4216812) ∧
    ((2333991:ℝ) ≤ (6378137.0 / Real.sqrt (1 - (2 * (1 / 298.257223563) - 1 / 298.257223563 * (1 / 298.257223563)) * Real.sin (41.0082 * (Real.pi / 180)) * Real.sin (41.0082 * (Real.pi / 180))) + 0) * Real.cos (41.0082 * (Real.pi / 180)) * Real.sin (28.9784 * (Real.pi / 180)) ∧ ((6378137.0 / Real.sqrt (1 - (2 * (1 / 298.257223563) - 1 / 298.257223563 * (1 / 298.257223563)) * Real.sin (41.0082 * (Real.pi / 180)) * Real.sin (41.0082 * (Real.pi / 180))) + 0) * Real.cos (41.0082 * (Real.pi / 180)) * Real.sin (28.9784 * (Real.pi / 180))) ≤ 2335351) ∧
    ((4162405:ℝ) ≤ (6378137.0 / Real.sqrt (1 - (2 * (1 / 298.257223563) - 1 / 298.257223563 * (1 / 298.257223563)) * Real.sin (41.0082 * (Real.pi / 180)) * Real.sin (41.0082 * (Real.pi / 180))) * (1 - (2 * (1 / 298.257223563) - 1 / 298.257223563 * (1 / 298.257223563))) + 0) * Real.sin (41.0082 * (Real.pi / 180)) ∧ ((6378137.0 / Real.sqrt (1 - (2 * (1 / 298.257223563) - 1 / 298.257223563 * (1 / 298.257223563)) * Real.sin (41.0082 * (Real.pi / 180)) * Real.sin (41.0082 * (Real.pi / 180))) * (1 - (2 * (1 / 298.257223563) - 1 / 298.257223563 * (1 / 298.257223563))) + 0) * Real.sin (41.0082 * (Real.pi / 180))) ≤ 4163325) := by
  obtain ⟨⟨has_lo, has_hi⟩, hac_lo, hac_hi⟩ := sin_cos_istanbul_lat
  obtain ⟨⟨hbs_lo, hbs_hi⟩, hbc_lo, hbc_hi⟩ := sin_cos_istanbul_lon
  have hss_hi : Real.sin (41.0082 * (Real.pi / 180)) * Real.sin (41.0082 * (Real.pi / 180)) ≤ (0.65620074358862:ℝ) * 0.65620074358862 :=
    mul_le_mul has_hi has_hi (by linarith) (by norm_num)
  have hss_lo : (0.65605629819036:ℝ) * 0.65605629819036 ≤ Real.sin (41.0082 * (Real.pi / 180)) * Real.sin (41.0082 * (Real.pi / 180)) :=
    mul_le_mul has_lo has_lo (by norm_num) (by linarith)
  have hw_lo : (0.99711740388652:ℝ) ≤ 1 - (2 * (1 / 298.257223563) - 1 / 298.257223563 * (1 / 298.257223563)) * Real.sin (41.0082 * (Real.pi / 180)) * Real.sin (41.0082 * (Real.pi / 180)) := by linarith
  have hw_hi : (1 - (2 * (1 / 298.257223563) - 1 / 298.257223563 * (1 / 298.257223563)) * Real.sin (41.0082 * (Real.pi / 180)) * Real.sin (41.0082 * (Real.pi / 180))) ≤ (0.99711867280285:ℝ) := by linarith
  have hr_lo : (0.99855766177348:ℝ) ≤ Real.sqrt (1 - (2 * (1 / 298.257223563) - 1 / 298.257223563 * (1 / 298.257223563)) * Real.sin (41.0082 * (Real.pi / 180)) * Real.sin (41.0082 * (Real.pi / 180))) := by
    rw [show (0.99855766177348:ℝ) = Real.sqrt ((0.99855766177348:ℝ)^2) from (Real.sqrt_sq (by norm_num)).symm]
    exact Real.sqrt_le_sqrt (by linarith)
  have hr_hi : Real.sqrt (1 - (2 * (1 / 298.257223563) - 1 / 298.257223563 * (1 / 298.257223563)) * Real.sin (41.0082 * (Real.pi / 180)) * Real.sin (41.0082 * (Real.pi / 180))) ≤ (0.99855829714787:ℝ) := by
    rw [show (0.99855829714787:ℝ) = Real.sqrt ((0.99855829714787:ℝ)^2) from (Real.sqrt_sq (by norm_num)).symm]
    exact Real.sqrt_le_sqrt (by linarith)
  have hr_pos : (0:ℝ) < Real.sqrt (1 - (2 * (1 / 298.257223563) - 1 / 298.257223563 * (1 / 298.257223563)) * Real.sin (41.0082 * (Real.pi / 180)) * Real.sin (41.0082 * (Real.pi / 180))) := by linarith
  have hN_hi : (6378137.0 / Real.sqrt (1 - (2 * (1 / 298.257223563) - 1 / 298.257223563 * (1 / 298.257223563)) * Real.sin (41.0082 * (Real.pi / 180)) * Real.sin (41.0082 * (Real.pi / 180)))) ≤ (6387349.718666:ℝ) := by
    rw [div_le_iff hr_pos]
    nlinarith
  have hN_lo : (6387345.654447:ℝ) ≤ 6378137.0 / Real.sqrt (1 - (2 * (1 / 298.257223563) - 1 / 298.257223563 * (1 / 298.257223563)) * Real.sin (41.0082 * (Real.pi / 180)) * Real.sin (41.0082 * (Real.pi / 180))) := by
    rw [le_div_iff hr_pos]
    nlinarith
  have hNC_lo : (4817737.615633:ℝ) ≤ (6378137.0 / Real.sqrt (1 - (2 * (1 / 298.257223563) - 1 / 298.257223563 * (1 / 298.257223563)) * Real.sin (41.0082 * (Real.pi / 180)) * Real.sin (41.0082 * (Real.pi / 180))) + 0) * Real.cos (41.0082 * (Real.pi / 180)) := by
    have key := mul_le_mul (by linarith : (6387345.654447:ℝ) ≤ 6378137.0 / Real.sqrt (1 - (2 * (1 / 298.257223563) - 1 / 298.257223563 * (1 / 298.257223563)) * Real.sin (41.0082 * (Real.pi / 180)) * Real.sin (41.0082 * (Real.pi / 180))) + 0) hac_lo
      (by norm_num) (by linarith)
    linarith
  have hNC_hi : (6378137.0 / Real.sqrt (1 - (2 * (1 / 298.257223563) - 1 / 298.257223563 * (1 / 298.257223563)) * Real.sin (41.0082 * (Real.pi / 180)) * Real.sin (41.0082 * (Real.pi / 180))) + 0) * Real.cos (41.0082 * (Real.pi / 180)) ≤ (4820244.958185:ℝ) := by
    have key := mul_le_mul (by linarith : (6378137.0 / Real.sqrt (1 - (2 * (1 / 298.257223563) - 1 / 298.257223563 * (1 / 298.257223563)) * Real.sin (41.0082 * (Real.pi / 180)) * Real.sin (41.0082 * (Real.pi / 180))) + 0) ≤ (6387349.718666:ℝ)) hac_hi
      (by linarith) (by norm_num)
    linarith
  have hX_lo : ((4214125:ℝ)) ≤ (6378137.0 / Real.sqrt (1 - (2 * (1 / 298.257223563) - 1 / 298.257223563 * (1 / 298.257223563)) * Real.sin (41.0082 * (Real.pi / 180)) * Real.sin (41.0082 * (Real.pi / 180))) + 0) * Real.cos (41.0082 * (Real.pi / 180)) * Real.cos (28.9784 * (Real.pi / 180)) := by
    have key := mul_le_mul hNC_lo hbc_lo (by norm_num) (by linarith)
    linarith
  have hX_hi : ((6378137.0 / Real.sqrt (1 - (2 * (1 / 298.257223563) - 1 / 298.257223563 * (1 / 298.257223563)) * Real.sin (41.0082 * (Real.pi / 180)) * Real.sin (41.0082 * (Real.pi / 180))) + 0) * Real.cos (41.0082 * (Real.pi / 180)) * Real.cos (28.9784 * (Real.pi / 180))) ≤ 4216812 := by
    have key := mul_le_mul hNC_hi hbc_hi (by linarith) (by norm_num)
    linarith
  have hY_lo : ((2333991:ℝ)) ≤ (6378137.0 / Real.sqrt (1 - (2 * (1 / 298.257223563) - 1 / 298.257223563 * (1 / 298.257223563)) * Real.sin (41.0082 * (Real.pi / 180)) * Real.sin (41.0082 * (Real.pi / 180))) + 0) * Real.cos (41.0082 * (Real.pi / 180)) * Real.sin (28.9784 * (Real.pi / 180)) := by
    have key := mul_le_mul hNC_lo hbs_lo (by norm_num) (by linarith)
    linarith
  have hY_hi : ((6378137.0 / Real.sqrt (1 - (2 * (1 / 298.257223563) - 1 / 298.257223563 * (1 / 298.257223563)) * Real.sin (41.0082 * (Real.pi / 180)) * Real.sin (41.0082 * (Real.pi / 180))) + 0) * Real.cos (41.0082 * (Real.pi / 180)) * Real.sin (28.9784 * (Real.pi / 180))) ≤ 2335351 := by
    have key := mul_le_mul hNC_hi hbs_hi (by linarith) (by norm_num)
    linarith
  have hM_lo : (6344586.335507:ℝ) ≤ 6378137.0 / Real.sqrt (1 - (2 * (1 / 298.257223563) - 1 / 298.257223563 * (1 / 298.257223563)) * Real.sin (41.0082 * (Real.pi / 180)) * Real.sin (41.0082 * (Real.pi / 180))) * (1 - (2 * (1 / 298.257223563) - 1 / 298.257223563 * (1 / 298.257223563))) + 0 := by linarith
  have hM_hi : (6378137.0 / Real.sqrt (1 - (2 * (1 / 298.257223563) - 1 / 298.257223563 * (1 / 298.257223563)) * Real.sin (41.0082 * (Real.pi / 180)) * Real.sin (41.0082 * (Real.pi / 180))) * (1 - (2 * (1 / 298.257223563) - 1 / 298.257223563 * (1 / 298.257223563))) + 0) ≤ (6344590.37252:ℝ) := by linarith
  have hZ_lo : ((4162405:ℝ)) ≤ (6378137.0 / Real.sqrt (1 - (2 * (1 / 298.257223563) - 1 / 298.257223563 * (1 / 298.257223563)) * Real.sin (41.0082 * (Real.pi / 180)) * Real.sin (41.0082 * (Real.pi / 180))) * (1 - (2 * (1 / 298.257223563) - 1 / 298.257223563 * (1 / 298.257223563))) + 0) * Real.sin (41.0082 * (Real.pi / 180)) := by
    have key := mul_le_mul hM_lo has_lo (by norm_num) (by linarith)
    linarith
  have hZ_hi : ((6378137.0 / Real.sqrt (1 - (2 * (1 / 298.257223563) - 1 / 298.257223563 * (1 / 298.257223563)) * Real.sin (41.0082 * (Real.pi / 180)) * Real.sin (41.0082 * (Real.pi / 180))) * (1 - (2 * (1 / 298.257223563) - 1 / 298.257223563 * (1 / 298.257223563))) + 0) * Real.sin (41.0082 * (Real.pi / 180))) ≤ 4163325 := by
    have key := mul_le_mul hM_hi has_hi (by linarith) (by norm_num)
    linarith
  exact ⟨⟨hX_lo, hX_hi⟩, ⟨hY_lo, hY_hi⟩, hZ_lo, hZ_hi⟩

/-- Interval bounds for `toGeocentric(41.0082, 28.9784, 0, WGS84)`. -/
theorem geocentric_istanbul_bounds :
    ((4214125:ℝ) ≤ (geographicToGeocentric 41.0082 28.9784 0 WGS84ell).x ∧ (geographicToGeocentric 41.0082 28.9784 0 WGS84ell).x ≤ 4216812) ∧
    ((2333991:ℝ) ≤ (geographicToGeocentric 41.0082 28.9784 0 WGS84ell).y ∧ (geographicToGeocentric 41.0082 28.9784 0 WGS84ell).y ≤ 2335351) ∧
    ((4162405:ℝ) ≤ (geographicToGeocentric 41.0082 28.9784 0 WGS84ell).z ∧ (geographicToGeocentric 41.0082 28.9784 0 WGS84ell).z ≤ 4163325) := by
  have hx : (geographicToGeocentric 41.0082 28.9784 0 WGS84ell).x = (6378137.0 / Real.sqrt (1 - (2 * (1 / 298.257223563) - 1 / 298.257223563 * (1 / 298.257223563)) * Real.sin (41.0082 * (Real.pi / 180)) * Real.sin (41.0082 * (Real.pi / 180))) + 0) * Real.cos (41.0082 * (Real.pi / 180)) * Real.cos (28.9784 * (Real.pi / 180)) := by
    simp only [geographicToGeocentric, getEllipsoidParams, WGS84ell, toRadians, DEG2RAD]
  have hy : (geographicToGeocentric 41.0082 28.9784 0 WGS84ell).y = (6378137.0 / Real.sqrt (1 - (2 * (1 / 298.257223563) - 1 / 298.257223563 * (1 / 298.257223563)) * Real.sin (41.0082 * (Real.pi / 180)) * Real.sin (41.0082 * (Real.pi / 180))) + 0) * Real.cos (41.0082 * (Real.pi / 180)) * Real.sin (28.9784 * (Real.pi / 180)) := by
    simp only [geographicToGeocentric, getEllipsoidParams, WGS84ell, toRadians, DEG2RAD]
  have hz : (geographicToGeocentric 41.0082 28.9784 0 WGS84ell).z = (6378137.0 / Real.sqrt (1 - (2 * (1 / 298.257223563) - 1 / 298.257223563 * (1 / 298.257223563)) * Real.sin (41.0082 * (Real.pi / 180)) * Real.sin (41.0082 * (Real.pi / 180))) * (1 - (2 * (1 / 298.257223563) - 1 / 298.257223563 * (1 / 298.257223563))) + 0) * Real.sin (41.0082 * (Real.pi / 180)) := by
    simp only [geographicToGeocentric, getEllipsoidParams, WGS84ell, toRadians, DEG2RAD]
  rw [hx, hy, hz]
  exact geocentric_istanbul_bounds_raw

/-- C4 counterexample: the x-component of
`toGeocentric(41.0082, 28.9784, 0, WGS84)` exceeds 4214125 meters, so it
is not approximately 4141604 meters (it misses that value by more than
72000 meters); the spec's pinned regression values do not come from the
stated closed form. -/
theorem geocentric_istanbul_x_not_4141604 :
    ¬ (|(geographicToGeocentric 41.0082 28.9784 0 WGS84ell).x - 4141604| ≤ 1000) := by
  have h := geocentric_istanbul_bounds.1.1
  rw [not_le]
  refine lt_of_lt_of_le ?_ (le_abs_self _)
  linarith

/-- C4 amended: the closed form at (41.0082, 28.9784, 0) on WGS84 produces
X = 4216542, Y = 2335190, Z = 4163110 meters, each to within 3000 meters
(the true values are X = 4216541.98, Y = 2335189.80, Z = 4163110.43), not
the (4141604, 2278000, 4169100) stated in the specification. -/
theorem geocentric_istanbul_values :
    |(geographicToGeocentric 41.0082 28.9784 0 WGS84ell).x - 4216542| < 3000 ∧
    |(geographicToGeocentric 41.0082 28.9784 0 WGS84ell).y - 2335190| < 3000 ∧
    |(geographicToGeocentric 41.0082 28.9784 0 WGS84ell).z - 4163110| < 3000 := by
  obtain ⟨⟨hx1, hx2⟩, ⟨hy1, hy2⟩, hz1, hz2⟩ := geocentric_istanbul_bounds
  refine ⟨?_, ?_, ?_⟩ <;> rw [abs_lt] <;> constructor <;> linarith

end

end DatumX
